import Mathlib

/-!
Verification of `server.js` (calendariowfg).

Shallow embedding of the two Express server variants in `src/server.js`:

* the session-auth variant backed by Supabase (lines 1–281): login with
  roles, `requireAuth` / `requireAdmin` guards, CRUD on `marketing_events`;
* the no-auth variant backed by SQLite (lines 282–441): open CRUD on
  `events`.

JSON request fields are modelled as `Option String` (`none` = absent);
JavaScript truthiness of a string field (`!x`) is `strTruthy`.  The event
store is a list of records plus an id counter (the database's id
assignment); primary-key uniqueness of `id` is carried as a `Nodup`
hypothesis where a theorem needs it.  HTTP responses are a status code
paired with a `Body`.
-/

namespace Calendario

/-- An event record as stored in either database.  `channel`, `platform`,
`notes` are nullable columns (`none` = SQL NULL).  `createdBy` is the
`created_by` column of the Supabase variant (`none` in the SQLite variant,
whose table has no such column). -/
structure Event where
  id : Nat
  date : String
  time : String
  title : String
  channel : Option String
  platform : Option String
  notes : Option String
  createdBy : Option Nat
deriving DecidableEq, Repr

/-- The event table together with the id the database will assign next. -/
structure Store where
  events : List Event
  nextId : Nat
deriving DecidableEq, Repr

/-- JavaScript truthiness of a string-valued request field: `!x` is true
exactly when the field is absent or the empty string. -/
def strTruthy : Option String → Bool
  | none => false
  | some s => !(s == "")

/-- `x || null` on a string field (Supabase variant, lines 188–190). -/
def orNull (x : Option String) : Option String :=
  if strTruthy x then x else none

/-- `x || ""` on a string field (SQLite variant, line 366). -/
def orEmpty (x : Option String) : String :=
  if strTruthy x then x.getD "" else ""

/-- Request body of the event routes:
`{ date, time, title, channel, platform, notes }`. -/
structure EventBody where
  date : Option String
  time : Option String
  title : Option String
  channel : Option String
  platform : Option String
  notes : Option String
deriving DecidableEq, Repr

/-- The required-field check `!date || !time || !title` passes. -/
def reqOk (b : EventBody) : Bool :=
  strTruthy b.date && strTruthy b.time && strTruthy b.title

/-- JSON response bodies of the event routes. -/
inductive Body where
  | err (msg : String)
  | event (e : Event)
  | events (l : List Event)
  | success
deriving DecidableEq, Repr

/-- Lexicographic strict order on character lists: the text comparison
the databases apply to the ISO `date`/`time` strings. -/
def lexLt : List Char → List Char → Bool
  | [], [] => false
  | [], _ :: _ => true
  | _ :: _, [] => false
  | a :: as, b :: bs =>
    if a < b then true
    else if b < a then false
    else lexLt as bs

/-- `a < b` as the databases compare text columns. -/
def strLt (a b : String) : Bool :=
  lexLt a.data b.data

/-- `a <= b` as the databases compare text columns. -/
def strLe (a b : String) : Bool :=
  !(strLt b a)

/-- `ORDER BY date ASC, time ASC` (SQLite) and
`.order("date").order("time")` (Supabase): lexicographic order on
(date, time). -/
def evLe (a b : Event) : Prop :=
  (strLt a.date b.date || (a.date == b.date && strLe a.time b.time)) = true

instance : DecidableRel evLe := fun a b => by
  unfold evLe; infer_instance

/-- Sorting used by both list handlers. -/
def sortEvents (l : List Event) : List Event :=
  l.insertionSort evLe

/-- `date >= start AND date <= end` — the inclusive range filter of both
list handlers (Supabase `gte`/`lte`, SQLite `WHERE`). -/
def inRange (s e : String) (ev : Event) : Bool :=
  strLe s ev.date && strLe ev.date e

/-- GET `/api/events` handler body of the Supabase variant
(lines 140–168, after `requireAuth`): 400 if `!start || !end`, otherwise
the stored events with `start ≤ date ≤ end`, ordered by date then time
ascending. -/
def listEventsAuth (s e : Option String) (st : Store) : Nat × Body :=
  if !strTruthy s || !strTruthy e then
    (400, Body.err "Los parámetros 'start' y 'end' son obligatorios.")
  else
    (200, Body.events (sortEvents (st.events.filter (inRange (s.getD "") (e.getD "")))))

/-- GET `/api/events` handler of the SQLite variant (lines 327–348):
same 400 check, `SELECT * … WHERE date >= ? AND date <= ? ORDER BY date
ASC, time ASC`. -/
def listEventsNoAuth (s e : Option String) (st : Store) : Nat × Body :=
  if !strTruthy s || !strTruthy e then
    (400, Body.err "Los parámetros 'start' y 'end' son obligatorios (YYYY-MM-DD).")
  else
    (200, Body.events (sortEvents (st.events.filter (inRange (s.getD "") (e.getD "")))))

/-- Fields written by the Supabase update (lines 222–229): the six body
fields, optional ones via `|| null`; `id` and `created_by` untouched. -/
def applyUpdateAuth (b : EventBody) (ev : Event) : Event :=
  { ev with
    date := b.date.getD ""
    time := b.time.getD ""
    title := b.title.getD ""
    channel := orNull b.channel
    platform := orNull b.platform
    notes := orNull b.notes }

/-- Fields written by the SQLite `UPDATE` (lines 391–404): optional ones
via `|| ""`. -/
def applyUpdateNoAuth (b : EventBody) (ev : Event) : Event :=
  { ev with
    date := b.date.getD ""
    time := b.time.getD ""
    title := b.title.getD ""
    channel := some (orEmpty b.channel)
    platform := some (orEmpty b.platform)
    notes := some (orEmpty b.notes) }

/-- POST `/api/events` handler body of the Supabase variant
(lines 172–206, after `requireAuth`): 400 on `!date || !time || !title`,
otherwise insert with optional fields `|| null` and
`created_by = req.session.user.id`, and return 201 with the stored row. -/
def createEventAuth (b : EventBody) (uid : Nat) (st : Store) :
    (Nat × Body) × Store :=
  if !reqOk b then
    ((400, Body.err "Los campos 'date', 'time' y 'title' son obligatorios."), st)
  else
    let ev : Event :=
      { id := st.nextId
        date := b.date.getD ""
        time := b.time.getD ""
        title := b.title.getD ""
        channel := orNull b.channel
        platform := orNull b.platform
        notes := orNull b.notes
        createdBy := some uid }
    ((201, Body.event ev), ⟨st.events ++ [ev], st.nextId + 1⟩)

/-- POST `/api/events` handler of the SQLite variant (lines 352–377):
optional fields are stored via `|| ""`, the inserted row is re-read by
`lastInsertRowid` and returned with 201. -/
def createEventNoAuth (b : EventBody) (st : Store) : (Nat × Body) × Store :=
  if !reqOk b then
    ((400, Body.err "Los campos 'date', 'time' y 'title' son obligatorios."), st)
  else
    let ev : Event :=
      { id := st.nextId
        date := b.date.getD ""
        time := b.time.getD ""
        title := b.title.getD ""
        channel := some (orEmpty b.channel)
        platform := some (orEmpty b.platform)
        notes := some (orEmpty b.notes)
        createdBy := none }
    ((201, Body.event ev), ⟨st.events ++ [ev], st.nextId + 1⟩)

/-- PUT `/api/events/:id` handler body of the Supabase variant
(lines 209–248): 400 on missing required fields; otherwise the update is
applied to every row with the given id (`id` is the primary key, so at
most one), and `maybeSingle` yields the updated row or `null`, mapped to
404. -/
def updateEventAuth (idv : Nat) (b : EventBody) (st : Store) :
    (Nat × Body) × Store :=
  if !reqOk b then
    ((400, Body.err "Los campos 'date', 'time' y 'title' son obligatorios."), st)
  else
    match (st.events.map
        (fun x => if x.id == idv then applyUpdateAuth b x else x)).find?
        (fun x => x.id == idv) with
    | none => ((404, Body.err "Evento no encontrado"), st)
    | some ev =>
      ((200, Body.event ev),
        ⟨st.events.map (fun x => if x.id == idv then applyUpdateAuth b x else x),
          st.nextId⟩)

/-- PUT `/api/events/:id` handler of the SQLite variant (lines 380–416):
400 on missing required fields; `result.changes === 0` is mapped to 404;
otherwise the row is re-read by id and returned. -/
def updateEventNoAuth (idv : Nat) (b : EventBody) (st : Store) :
    (Nat × Body) × Store :=
  if !reqOk b then
    ((400, Body.err "Los campos 'date', 'time' y 'title' son obligatorios."), st)
  else
    match (st.events.map
        (fun x => if x.id == idv then applyUpdateNoAuth b x else x)).find?
        (fun x => x.id == idv) with
    | none => ((404, Body.err "Evento no encontrado"), st)
    | some ev =>
      ((200, Body.event ev),
        ⟨st.events.map (fun x => if x.id == idv then applyUpdateNoAuth b x else x),
          st.nextId⟩)

/-- DELETE `/api/events/:id` handler body of the Supabase variant
(lines 251–274, after `requireAdmin`): deletes the rows with the given id
with an exact count; `count === 0` is mapped to 404, otherwise
`{ success: true }`. -/
def deleteEventAuth (idv : Nat) (st : Store) : (Nat × Body) × Store :=
  let remaining := st.events.filter (fun x => !(x.id == idv))
  if (st.events.filter (fun x => x.id == idv)).length == 0 then
    ((404, Body.err "Evento no encontrado"), st)
  else
    ((200, Body.success), ⟨remaining, st.nextId⟩)

/-- DELETE `/api/events/:id` handler of the SQLite variant
(lines 419–434): `result.changes === 0` is mapped to 404, otherwise
`{ success: true }`. -/
def deleteEventNoAuth (idv : Nat) (st : Store) : (Nat × Body) × Store :=
  let remaining := st.events.filter (fun x => !(x.id == idv))
  if (st.events.filter (fun x => x.id == idv)).length == 0 then
    ((404, Body.err "Evento no encontrado"), st)
  else
    ((200, Body.success), ⟨remaining, st.nextId⟩)

/-! ## Users, sessions and login (Supabase variant only) -/

/-- A row of `marketing_users` as selected by the login route
(line 91): `id, email, password, role, active`. -/
structure User where
  id : Nat
  email : String
  password : String
  role : String
  active : Bool
deriving DecidableEq, Repr

/-- The reduced projection stored in the session on successful login
(lines 111–115). -/
structure SessionUser where
  id : Nat
  email : String
  role : String
deriving DecidableEq, Repr

/-- A JSON value appearing in the login response body. -/
inductive JValue where
  | s (v : String)
  | n (v : Nat)
deriving DecidableEq, Repr

/-- Outcome of the login route: status, JSON body as a field list, and
the session after the request. -/
structure LoginResult where
  status : Nat
  body : List (String × JValue)
  session : Option SessionUser
deriving DecidableEq, Repr

/-- POST `/api/login` (lines 79–126): 400 if `!email || !password`;
the user is looked up by email (`maybeSingle` over the unique `email`
column, modelled as `find?`); 401 if absent, inactive, or the stored
plaintext password differs; on success the session becomes
`{ id, email, role }` and the same projection is the response body. -/
def login (email password : Option String) (users : List User)
    (sess : Option SessionUser) : LoginResult :=
  if !strTruthy email || !strTruthy password then
    ⟨400, [("error", JValue.s "Email y contraseña son obligatorios.")], sess⟩
  else
    match users.find? (fun u => u.email == email.getD "") with
    | none => ⟨401, [("error", JValue.s "Credenciales inválidas")], sess⟩
    | some u =>
      if !u.active then
        ⟨401, [("error", JValue.s "Credenciales inválidas")], sess⟩
      else if u.password != password.getD "" then
        ⟨401, [("error", JValue.s "Credenciales inválidas")], sess⟩
      else
        ⟨200, [("id", JValue.n u.id), ("email", JValue.s u.email),
               ("role", JValue.s u.role)], some ⟨u.id, u.email, u.role⟩⟩

/-- The `requireAdmin` guard (lines 64–72) composed with the delete
handler, as on the DELETE route (line 251): 401 with no session user,
403 when the session role is not `admin`; only past both checks does the
delete run. -/
def deleteRouteAuth (sess : Option SessionUser) (idv : Nat) (st : Store) :
    (Nat × Body) × Store :=
  match sess with
  | none => ((401, Body.err "No autenticado"), st)
  | some u =>
    if u.role != "admin" then
      ((403, Body.err "No autorizado (se requiere admin)"), st)
    else
      deleteEventAuth idv st

/-! ## Concrete data for witnesses -/

/-- Concrete stored record. -/
def evA : Event :=
  ⟨1, "2024-06-02", "10:00", "Reel semanal", some "Reel", some "Instagram", none, none⟩

/-- Concrete stored record. -/
def evB : Event :=
  ⟨2, "2024-06-01", "09:00", "Launch post", none, none, none, none⟩

/-- A concrete store with two events. -/
def demoStore : Store := ⟨[evA, evB], 3⟩

/-- Request body `{date:"2024-06-01", time:"09:00", title:"Launch post"}`
with no optional fields. -/
def launchBody : EventBody :=
  ⟨some "2024-06-01", some "09:00", some "Launch post", none, none, none⟩

/-- Update body `{date:"2024-06-03", time:"11:00", title:"Nuevo título",
channel:"Post"}`. -/
def updBody : EventBody :=
  ⟨some "2024-06-03", some "11:00", some "Nuevo título", some "Post", none, none⟩

/-- Stored users: an active admin. -/
def adminUser : User := ⟨7, "admin@wfg.com", "secreto123", "admin", true⟩

/-- An inactive stored user. -/
def inactiveUser : User := ⟨8, "ex@wfg.com", "pw", "editor", false⟩

/-- The demo user table. -/
def demoUsers : List User := [adminUser, inactiveUser]

/-! Theorems.  First the order facts about the text comparison the
databases apply to the ISO date and time columns, then one theorem per
verified property of the route handlers. -/

theorem lexLt_asymm : ∀ {a b : List Char},
    lexLt a b = true → lexLt b a = false
  | [], [], _ => rfl
  | [], _ :: _, _ => rfl
  | _ :: _, [], h => by simp [lexLt] at h
  | a :: as, b :: bs, h => by
    by_cases hab : a < b
    · simp [lexLt, hab, asymm hab, lt_irrefl]
    · by_cases hba : b < a
      · simp [lexLt, hab, hba] at h
      · simp only [lexLt, if_neg hab, if_neg hba] at h
        simp [lexLt, hab, hba, lexLt_asymm h]

theorem lexLt_trans : ∀ {a b c : List Char},
    lexLt a b = true → lexLt b c = true → lexLt a c = true
  | [], _, _ :: _, _, _ => rfl
  | [], b, [], _, h2 => by cases b <;> simp [lexLt] at h2
  | _ :: _, b, [], h1, h2 => by
    cases b <;> simp [lexLt] at h1 h2
  | _ :: _, [], _ :: _, h1, _ => by simp [lexLt] at h1
  | a :: as, b :: bs, c :: cs, h1, h2 => by
    by_cases hab : a < b <;> by_cases hbc : b < c
    · simp [lexLt, hab.trans hbc]
    · rcases lt_or_eq_of_le (le_of_not_lt hbc) with hcb | hcb
      · simp [lexLt, hbc, hcb] at h2
      · simp [lexLt, hcb ▸ hab]
    · rcases lt_or_eq_of_le (le_of_not_lt hab) with hba | hba
      · simp [lexLt, hab, hba] at h1
      · simp [lexLt, hba ▸ hbc]
    · rcases lt_or_eq_of_le (le_of_not_lt hab) with hba | hba
      · simp [lexLt, hab, hba] at h1
      · subst hba
        rcases lt_or_eq_of_le (le_of_not_lt hbc) with hcb | hcb
        · simp [lexLt, hbc, hcb] at h2
        · subst hcb
          simp only [lexLt, if_neg hab, if_neg hbc] at h1 h2 ⊢
          exact lexLt_trans h1 h2

theorem lexLt_trichotomy : ∀ a b : List Char,
    lexLt a b = true ∨ a = b ∨ lexLt b a = true
  | [], [] => Or.inr (Or.inl rfl)
  | [], _ :: _ => Or.inl rfl
  | _ :: _, [] => Or.inr (Or.inr rfl)
  | a :: as, b :: bs => by
    rcases lt_trichotomy a b with hab | hab | hab
    · exact Or.inl (by simp [lexLt, hab])
    · subst hab
      rcases lexLt_trichotomy as bs with h | h | h
      · exact Or.inl (by simp [lexLt, lt_irrefl, h])
      · exact Or.inr (Or.inl (by rw [h]))
      · exact Or.inr (Or.inr (by simp [lexLt, lt_irrefl, h]))
    · exact Or.inr (Or.inr (by simp [lexLt, hab, asymm hab]))

theorem strLt_trichotomy (a b : String) :
    strLt a b = true ∨ a = b ∨ strLt b a = true := by
  rcases lexLt_trichotomy a.data b.data with h | h | h
  · exact Or.inl h
  · refine Or.inr (Or.inl ?_)
    cases a; cases b; exact congrArg String.mk h
  · exact Or.inr (Or.inr h)

theorem strLe_total (a b : String) : strLe a b = true ∨ strLe b a = true := by
  by_cases h : strLt b a = true
  · exact Or.inr (by simp [strLe, strLt] at h ⊢; simp [lexLt_asymm h])
  · exact Or.inl (by simp [strLe, h])

theorem strLe_trans {a b c : String} (h1 : strLe a b = true)
    (h2 : strLe b c = true) : strLe a c = true := by
  simp only [strLe, Bool.not_eq_true', Bool.not_eq_true] at h1 h2 ⊢
  by_contra hca
  rw [Bool.not_eq_false] at hca
  rcases strLt_trichotomy a b with hab | hab | hab
  · have hlt := lexLt_trans hca hab
    simp only [strLt] at h2
    simp [hlt] at h2
  · subst hab
    simp [hca] at h2
  · simp [hab] at h1

/-- The handlers' ordering relation is total. -/
theorem evLe_isTotal : IsTotal Event evLe :=
  ⟨fun a b => by
    unfold evLe
    rcases strLt_trichotomy a.date b.date with h | h | h
    · exact Or.inl (by simp [h])
    · rcases strLe_total a.time b.time with ht | ht
      · exact Or.inl (by simp [h, ht])
      · exact Or.inr (by simp [h, ht])
    · exact Or.inr (by simp [h])⟩

/-- The handlers' ordering relation is transitive. -/
theorem evLe_isTrans : IsTrans Event evLe :=
  ⟨fun a b c hab hbc => by
    unfold evLe at *
    simp only [Bool.or_eq_true, Bool.and_eq_true, beq_iff_eq] at hab hbc ⊢
    rcases hab with h1 | ⟨h1, h1'⟩ <;> rcases hbc with h2 | ⟨h2, h2'⟩
    · exact Or.inl (lexLt_trans h1 h2)
    · exact Or.inl (h2 ▸ h1)
    · exact Or.inl (h1 ▸ h2)
    · exact Or.inr ⟨h1.trans h2, strLe_trans h1' h2'⟩⟩

/-- C1: with both bounds present, the list handler answers 200 with
exactly the stored events whose date lies in `[start, end]` (a
permutation of the filtered store), ordered by date then time ascending;
an empty range (`end < start`) yields 200 with the empty array; with a
bound missing or empty it answers 400, and the result does not depend on
the store (no query is made). -/
theorem list_range_query_spec (s e : Option String) (st : Store) :
    (strTruthy s = true → strTruthy e = true →
      ∃ l, listEventsAuth s e st = (200, Body.events l) ∧
        l.Perm (st.events.filter (inRange (s.getD "") (e.getD ""))) ∧
        l.Sorted evLe) ∧
    (strTruthy s = true → strTruthy e = true →
      strLt (e.getD "") (s.getD "") = true →
      listEventsAuth s e st = (200, Body.events [])) ∧
    (¬(strTruthy s = true ∧ strTruthy e = true) →
      (listEventsAuth s e st).1 = 400 ∧
      ∀ st' : Store, listEventsAuth s e st = listEventsAuth s e st') := by
  refine ⟨?_, ?_, ?_⟩
  · intro hs he
    refine ⟨sortEvents (st.events.filter (inRange (s.getD "") (e.getD ""))),
      ?_, ?_, ?_⟩
    · simp [listEventsAuth, hs, he]
    · exact List.perm_insertionSort _ _
    · haveI := evLe_isTotal
      haveI := evLe_isTrans
      exact List.sorted_insertionSort _ _
  · intro hs he hlt
    have hnil : st.events.filter (inRange (s.getD "") (e.getD "")) = [] := by
      rw [List.filter_eq_nil_iff]
      intro a _ hcon
      rw [inRange, Bool.and_eq_true] at hcon
      have hse := strLe_trans hcon.1 hcon.2
      rw [strLe, hlt] at hse
      exact Bool.noConfusion hse
    simp [listEventsAuth, hs, he, hnil, sortEvents]
  · intro hmiss
    have hbr : (!strTruthy s || !strTruthy e) = true := by
      rcases Decidable.not_and_iff_or_not.mp hmiss with h | h <;>
        simp [Bool.not_eq_true] at h <;> simp [h]
    exact ⟨by simp [listEventsAuth, hbr], fun st' => by simp [listEventsAuth, hbr]⟩

/-- Witness for C1 at concrete inputs: a populated range, an empty range,
and a missing bound. -/
theorem list_range_query_spec_witness :
    (∃ l, listEventsAuth (some "2024-06-01") (some "2024-06-30") demoStore =
        (200, Body.events l) ∧
      l.Perm (demoStore.events.filter (inRange "2024-06-01" "2024-06-30")) ∧
      l.Sorted evLe) ∧
    listEventsAuth (some "2024-07-01") (some "2024-06-01") demoStore =
      (200, Body.events []) ∧
    (listEventsAuth none (some "2024-06-30") demoStore).1 = 400 :=
  ⟨(list_range_query_spec (some "2024-06-01") (some "2024-06-30") demoStore).1
      (by decide) (by decide),
   (list_range_query_spec (some "2024-07-01") (some "2024-06-01") demoStore).2.1
      (by decide) (by decide) (by decide),
   ((list_range_query_spec none (some "2024-06-30") demoStore).2.2
      (by decide)).1⟩

/-- C8: the Supabase-backed and SQLite-backed list handlers are
observably equivalent: on the same store and query parameters they return
the same status (400 exactly when a bound is missing or empty, 200
otherwise), and in the 200 case the same event sequence. -/
theorem list_variants_equivalent (s e : Option String) (st : Store) :
    (listEventsAuth s e st).1 = (listEventsNoAuth s e st).1 ∧
    ((listEventsAuth s e st).1 = 400 ↔ ¬(strTruthy s = true ∧ strTruthy e = true)) ∧
    (strTruthy s = true → strTruthy e = true →
      (listEventsAuth s e st).2 = (listEventsNoAuth s e st).2) := by
  by_cases hs : strTruthy s = true <;> by_cases he : strTruthy e = true <;>
    simp [listEventsAuth, listEventsNoAuth, hs, he]

/-- Witness for C8 at a concrete query over the demo store. -/
theorem list_variants_equivalent_witness :
    (listEventsAuth (some "2024-06-01") (some "2024-06-30") demoStore).2 =
      (listEventsNoAuth (some "2024-06-01") (some "2024-06-30") demoStore).2 :=
  (list_variants_equivalent (some "2024-06-01") (some "2024-06-30") demoStore).2.2
    (by decide) (by decide)

/-- C6: on the admin-guarded delete route, a request with no session
user is rejected with 401 and a request whose session role is not
`admin` is rejected with 403; in both cases the store is returned
unchanged — the delete handler never runs. -/
theorem require_admin_guard_spec (sess : Option SessionUser) (idv : Nat)
    (st : Store) :
    (sess = none →
      deleteRouteAuth sess idv st = ((401, Body.err "No autenticado"), st)) ∧
    (∀ u, sess = some u → u.role ≠ "admin" →
      deleteRouteAuth sess idv st =
        ((403, Body.err "No autorizado (se requiere admin)"), st)) := by
  constructor
  · intro h
    subst h
    rfl
  · intro u h hrole
    subst h
    simp [deleteRouteAuth, bne_iff_ne, hrole]

/-- Witness for C6: an anonymous session and an authenticated
non-admin session, over the demo store. -/
theorem require_admin_guard_spec_witness :
    deleteRouteAuth none 1 demoStore =
      ((401, Body.err "No autenticado"), demoStore) ∧
    deleteRouteAuth (some ⟨7, "editor@wfg.com", "editor"⟩) 1 demoStore =
      ((403, Body.err "No autorizado (se requiere admin)"), demoStore) :=
  ⟨(require_admin_guard_spec none 1 demoStore).1 rfl,
   (require_admin_guard_spec (some ⟨7, "editor@wfg.com", "editor"⟩) 1
      demoStore).2 ⟨7, "editor@wfg.com", "editor"⟩ rfl (by decide)⟩

/-- C2 counterexample: the claim says an absent optional field is
stored as null, but the SQLite variant (line 366, `channel || ""`) stores
the empty string: creating `{date, time, title}` with no optional fields
persists `channel = ""` (`some ""`), which is not null (`none`). -/
theorem create_null_claim_counterexample :
    (createEventNoAuth
        ⟨some "2024-06-01", some "09:00", some "Launch post", none, none, none⟩
        ⟨[], 1⟩).1 =
      (201, Body.event
        ⟨1, "2024-06-01", "09:00", "Launch post", some "", some "", some "", none⟩) ∧
    (some "" : Option String) ≠ none := by
  constructor
  · rfl
  · decide

/-- C2 (amended): if date, time or title is missing or empty, both
create handlers answer 400 and persist nothing; otherwise a record is
appended whose id is the store-assigned one, the response is 201 with the
full stored record, and an absent optional field is stored as null in the
Supabase variant and as the empty string in the SQLite variant. -/
theorem create_event_spec (b : EventBody) (uid : Nat) (st : Store) :
    (reqOk b = false →
      createEventAuth b uid st =
        ((400, Body.err "Los campos 'date', 'time' y 'title' son obligatorios."), st) ∧
      createEventNoAuth b st =
        ((400, Body.err "Los campos 'date', 'time' y 'title' son obligatorios."), st)) ∧
    (reqOk b = true →
      (∃ ev, createEventAuth b uid st =
          ((201, Body.event ev), ⟨st.events ++ [ev], st.nextId + 1⟩) ∧
        ev.id = st.nextId ∧ ev.date = b.date.getD "" ∧
        ev.time = b.time.getD "" ∧ ev.title = b.title.getD "" ∧
        (b.channel = none → ev.channel = none) ∧
        (b.platform = none → ev.platform = none) ∧
        (b.notes = none → ev.notes = none)) ∧
      (∃ ev, createEventNoAuth b st =
          ((201, Body.event ev), ⟨st.events ++ [ev], st.nextId + 1⟩) ∧
        ev.id = st.nextId ∧ ev.date = b.date.getD "" ∧
        ev.time = b.time.getD "" ∧ ev.title = b.title.getD "" ∧
        (b.channel = none → ev.channel = some "") ∧
        (b.platform = none → ev.platform = some "") ∧
        (b.notes = none → ev.notes = some ""))) := by
  constructor
  · intro h
    constructor <;> simp [createEventAuth, createEventNoAuth, h]
  · intro h
    constructor
    · refine ⟨⟨st.nextId, b.date.getD "", b.time.getD "", b.title.getD "",
          orNull b.channel, orNull b.platform, orNull b.notes, some uid⟩,
        by simp [createEventAuth, h], rfl, rfl, rfl, rfl, ?_, ?_, ?_⟩ <;>
        (intro hnone; simp [orNull, hnone, strTruthy])
    · refine ⟨⟨st.nextId, b.date.getD "", b.time.getD "", b.title.getD "",
          some (orEmpty b.channel), some (orEmpty b.platform),
          some (orEmpty b.notes), none⟩,
        by simp [createEventNoAuth, h], rfl, rfl, rfl, rfl, ?_, ?_, ?_⟩ <;>
        (intro hnone; simp [orEmpty, hnone, strTruthy])

/-- Witness for C2 (amended): creating `launchBody` on the empty store in
both variants, and a create missing `title` on the demo store. -/
theorem create_event_spec_witness :
    ((∃ ev, createEventAuth launchBody 7 ⟨[], 1⟩ =
        ((201, Body.event ev), ⟨[ev], 2⟩) ∧
      ev.id = 1 ∧ ev.date = "2024-06-01" ∧ ev.time = "09:00" ∧
      ev.title = "Launch post" ∧
      (launchBody.channel = none → ev.channel = none) ∧
      (launchBody.platform = none → ev.platform = none) ∧
      (launchBody.notes = none → ev.notes = none)) ∧
    (∃ ev, createEventNoAuth launchBody ⟨[], 1⟩ =
        ((201, Body.event ev), ⟨[ev], 2⟩) ∧
      ev.id = 1 ∧ ev.date = "2024-06-01" ∧ ev.time = "09:00" ∧
      ev.title = "Launch post" ∧
      (launchBody.channel = none → ev.channel = some "") ∧
      (launchBody.platform = none → ev.platform = some "") ∧
      (launchBody.notes = none → ev.notes = some ""))) ∧
    createEventAuth ⟨some "2024-06-01", some "09:00", none, none, none, none⟩
        7 demoStore =
      ((400, Body.err "Los campos 'date', 'time' y 'title' son obligatorios."),
        demoStore) :=
  ⟨(create_event_spec launchBody 7 ⟨[], 1⟩).2 (by decide),
   ((create_event_spec ⟨some "2024-06-01", some "09:00", none, none, none, none⟩
      7 demoStore).1 (by decide)).1⟩

/-- A submitted non-empty string passes through `|| null` unchanged. -/
theorem orNull_some_of_ne {x : String} (h : x ≠ "") :
    orNull (some x) = some x := by
  simp [orNull, strTruthy, h]

/-- An absent or empty-string field becomes null under `|| null`. -/
theorem orNull_eq_none {v : Option String} (h : v = none ∨ v = some "") :
    orNull v = none := by
  rcases h with rfl | rfl <;> simp [orNull, strTruthy]

/-- A submitted string passes through `|| ""` unchanged, the empty string
included. -/
theorem orEmpty_some (x : String) : orEmpty (some x) = x := by
  by_cases h : x = "" <;> simp [orEmpty, strTruthy, h]

/-- If no stored event carries the id, the per-row update map is the
identity. -/
theorem update_map_id {l : List Event} {idv : Nat} (g : Event → Event)
    (hno : ∀ ev ∈ l, ev.id ≠ idv) :
    l.map (fun x => if x.id == idv then g x else x) = l := by
  conv_rhs => rw [← List.map_id l]
  apply List.map_congr_left
  intro a ha
  simp [hno a ha]

/-- If no stored event carries the id, the lookup by id fails. -/
theorem find?_id_eq_none {l : List Event} {idv : Nat}
    (hno : ∀ ev ∈ l, ev.id ≠ idv) :
    l.find? (fun x => x.id == idv) = none :=
  List.find?_eq_none.mpr (fun x hx => by simp [hno x hx])

/-- With pairwise-distinct ids (the primary key), looking up the id after
the per-row update map returns the updated row of the matching event. -/
theorem find?_update_of_nodup (g : Event → Event)
    (hg : ∀ x, (g x).id = x.id) :
    ∀ {l : List Event} {idv : Nat} {ev : Event},
      (l.map Event.id).Nodup → ev ∈ l → ev.id = idv →
      (l.map (fun x => if x.id == idv then g x else x)).find?
        (fun x => x.id == idv) = some (g ev) := by
  intro l
  induction l with
  | nil =>
    intro idv ev _ hmem _
    cases hmem
  | cons x xs ih =>
    intro idv ev hnd hmem hid
    rcases List.mem_cons.mp hmem with rfl | hmem'
    · simp [hid, hg]
    · have hxid : x.id ≠ idv := by
        intro hx
        have hmm : ev.id ∈ xs.map Event.id := List.mem_map_of_mem _ hmem'
        rw [hid, ← hx] at hmm
        exact (List.nodup_cons.mp (by simpa using hnd)).1 hmm
      have hnd' : (xs.map Event.id).Nodup :=
        (List.nodup_cons.mp (by simpa using hnd)).2
      have hcond : (x.id == idv) = false := by simp [hxid]
      simp only [List.map_cons, hcond, Bool.false_eq_true, if_false]
      rw [List.find?_cons_of_neg _ (by simp [hxid])]
      exact ih hnd' hmem' hid

/-- C3 counterexample: the claim says an existing record's fields are
replaced by the submitted values, but updating id 1 with a submitted
empty-string channel stores null (`channel || null`, line 226) — the
stored and returned channel is `none`, not the submitted `""`. -/
theorem update_verbatim_counterexample :
    updateEventAuth 1
        ⟨some "2024-06-02", some "10:00", some "Reel semanal", some "",
          none, none⟩ ⟨[evA], 2⟩ =
      ((200, Body.event
          ⟨1, "2024-06-02", "10:00", "Reel semanal", none, none, none, none⟩),
        ⟨[⟨1, "2024-06-02", "10:00", "Reel semanal", none, none, none, none⟩], 2⟩) ∧
    ((none : Option String) ≠ some "") := by
  constructor
  · rfl
  · decide

/-- C3 (amended): with valid required fields, updating a nonexistent id
answers 404 and leaves the store unchanged in both variants; updating an
existing id (ids being pairwise distinct, as the primary key guarantees)
answers 200 with the full updated record, where date, time and title are
replaced by the submitted values and submitted optional fields are stored
verbatim — except that the Supabase variant stores an empty-string or
absent optional field as null, and the SQLite variant stores an absent
optional field as the empty string. -/
theorem update_event_spec (idv : Nat) (b : EventBody) (st : Store)
    (hok : reqOk b = true) :
    ((∀ ev ∈ st.events, ev.id ≠ idv) →
      updateEventAuth idv b st = ((404, Body.err "Evento no encontrado"), st) ∧
      updateEventNoAuth idv b st = ((404, Body.err "Evento no encontrado"), st)) ∧
    (∀ ev, ev ∈ st.events → ev.id = idv → (st.events.map Event.id).Nodup →
      (updateEventAuth idv b st =
          ((200, Body.event (applyUpdateAuth b ev)),
            ⟨st.events.map (fun x => if x.id == idv then applyUpdateAuth b x else x),
              st.nextId⟩) ∧
        updateEventNoAuth idv b st =
          ((200, Body.event (applyUpdateNoAuth b ev)),
            ⟨st.events.map (fun x => if x.id == idv then applyUpdateNoAuth b x else x),
              st.nextId⟩)) ∧
      ((applyUpdateAuth b ev).date = b.date.getD "" ∧
        (applyUpdateAuth b ev).time = b.time.getD "" ∧
        (applyUpdateAuth b ev).title = b.title.getD "" ∧
        (applyUpdateAuth b ev).id = ev.id) ∧
      ((∀ x, b.channel = some x → x ≠ "" →
          (applyUpdateAuth b ev).channel = some x) ∧
        (∀ x, b.platform = some x → x ≠ "" →
          (applyUpdateAuth b ev).platform = some x) ∧
        (∀ x, b.notes = some x → x ≠ "" →
          (applyUpdateAuth b ev).notes = some x) ∧
        (b.channel = none ∨ b.channel = some "" →
          (applyUpdateAuth b ev).channel = none) ∧
        (b.platform = none ∨ b.platform = some "" →
          (applyUpdateAuth b ev).platform = none) ∧
        (b.notes = none ∨ b.notes = some "" →
          (applyUpdateAuth b ev).notes = none)) ∧
      ((applyUpdateNoAuth b ev).date = b.date.getD "" ∧
        (applyUpdateNoAuth b ev).time = b.time.getD "" ∧
        (applyUpdateNoAuth b ev).title = b.title.getD "" ∧
        (applyUpdateNoAuth b ev).id = ev.id) ∧
      ((∀ x, b.channel = some x → (applyUpdateNoAuth b ev).channel = some x) ∧
        (∀ x, b.platform = some x → (applyUpdateNoAuth b ev).platform = some x) ∧
        (∀ x, b.notes = some x → (applyUpdateNoAuth b ev).notes = some x) ∧
        (b.channel = none → (applyUpdateNoAuth b ev).channel = some "") ∧
        (b.platform = none → (applyUpdateNoAuth b ev).platform = some "") ∧
        (b.notes = none → (applyUpdateNoAuth b ev).notes = some ""))) := by
  constructor
  · intro hno
    constructor
    · unfold updateEventAuth
      rw [if_neg (by simp [hok]), update_map_id _ hno, find?_id_eq_none hno]
    · unfold updateEventNoAuth
      rw [if_neg (by simp [hok]), update_map_id _ hno, find?_id_eq_none hno]
  · intro ev hmem hid hnd
    have hfA := find?_update_of_nodup (applyUpdateAuth b) (fun _ => rfl)
      hnd hmem hid
    have hfN := find?_update_of_nodup (applyUpdateNoAuth b) (fun _ => rfl)
      hnd hmem hid
    refine ⟨⟨?_, ?_⟩, ⟨rfl, rfl, rfl, rfl⟩, ⟨?_, ?_, ?_, ?_, ?_, ?_⟩,
      ⟨rfl, rfl, rfl, rfl⟩, ⟨?_, ?_, ?_, ?_, ?_, ?_⟩⟩
    · unfold updateEventAuth
      rw [if_neg (by simp [hok]), hfA]
    · unfold updateEventNoAuth
      rw [if_neg (by simp [hok]), hfN]
    · intro x hx hne
      show orNull b.channel = some x
      rw [hx]
      exact orNull_some_of_ne hne
    · intro x hx hne
      show orNull b.platform = some x
      rw [hx]
      exact orNull_some_of_ne hne
    · intro x hx hne
      show orNull b.notes = some x
      rw [hx]
      exact orNull_some_of_ne hne
    · exact fun h => orNull_eq_none h
    · exact fun h => orNull_eq_none h
    · exact fun h => orNull_eq_none h
    · intro x hx
      show some (orEmpty b.channel) = some x
      rw [hx, orEmpty_some]
    · intro x hx
      show some (orEmpty b.platform) = some x
      rw [hx, orEmpty_some]
    · intro x hx
      show some (orEmpty b.notes) = some x
      rw [hx, orEmpty_some]
    · intro h
      show some (orEmpty b.channel) = some ""
      rw [h]
      rfl
    · intro h
      show some (orEmpty b.platform) = some ""
      rw [h]
      rfl
    · intro h
      show some (orEmpty b.notes) = some ""
      rw [h]
      rfl

/-- C9: required-field validation precedes the existence check: a
missing or empty date, time or title makes both update handlers answer
400 with the store unchanged — never 404, whatever the store and id. -/
theorem update_validation_precedes_existence (idv : Nat) (b : EventBody)
    (st : Store) (hbad : reqOk b = false) :
    (updateEventAuth idv b st =
        ((400, Body.err "Los campos 'date', 'time' y 'title' son obligatorios."), st) ∧
      updateEventNoAuth idv b st =
        ((400, Body.err "Los campos 'date', 'time' y 'title' son obligatorios."), st)) ∧
    (updateEventAuth idv b st).1.1 ≠ 404 ∧
    (updateEventNoAuth idv b st).1.1 ≠ 404 := by
  refine ⟨⟨?_, ?_⟩, ?_, ?_⟩ <;>
    simp [updateEventAuth, updateEventNoAuth, hbad]

/-- C4: deleting a nonexistent id answers 404 with the store
unchanged in both variants; deleting an existing id removes exactly the
records carrying that id, answers 200 with only a success flag, and a
subsequent list over any range never contains that id. -/
theorem delete_event_spec (idv : Nat) (st : Store) :
    ((∀ ev ∈ st.events, ev.id ≠ idv) →
      deleteEventAuth idv st = ((404, Body.err "Evento no encontrado"), st) ∧
      deleteEventNoAuth idv st = ((404, Body.err "Evento no encontrado"), st)) ∧
    ((∃ ev ∈ st.events, ev.id = idv) →
      (deleteEventAuth idv st =
          ((200, Body.success),
            ⟨st.events.filter (fun x => !(x.id == idv)), st.nextId⟩) ∧
        deleteEventNoAuth idv st =
          ((200, Body.success),
            ⟨st.events.filter (fun x => !(x.id == idv)), st.nextId⟩)) ∧
      (∀ s e l, listEventsAuth s e
          ⟨st.events.filter (fun x => !(x.id == idv)), st.nextId⟩ =
            (200, Body.events l) →
        ∀ ev ∈ l, ev.id ≠ idv)) := by
  constructor
  · intro hno
    have hfil : st.events.filter (fun x => x.id == idv) = [] :=
      List.filter_eq_nil_iff.mpr (fun x hx => by simp [hno x hx])
    constructor <;> simp [deleteEventAuth, deleteEventNoAuth, hfil]
  · rintro ⟨ev, hmem, hid⟩
    have hin : ev ∈ st.events.filter (fun x => x.id == idv) :=
      List.mem_filter.mpr ⟨hmem, by simp [hid]⟩
    have hpos : 0 < (st.events.filter (fun x => x.id == idv)).length :=
      List.length_pos.mpr (List.ne_nil_of_mem hin)
    have hlen : ((st.events.filter (fun x => x.id == idv)).length == 0) = false := by
      simp [Nat.pos_iff_ne_zero.mp hpos]
    refine ⟨⟨?_, ?_⟩, ?_⟩
    · simp [deleteEventAuth, hlen]
    · simp [deleteEventNoAuth, hlen]
    · intro s e l heq ev' hev'
      by_cases hc : (!strTruthy s || !strTruthy e) = true
      · rw [listEventsAuth, if_pos hc] at heq
        have h1 : (400 : Nat) = 200 := congrArg (fun p => p.1) heq
        exact absurd h1 (by decide)
      · simp only [listEventsAuth, if_neg hc] at heq
        have hbody := congrArg (fun p => p.2) heq
        simp only at hbody
        have hl : sortEvents ((st.events.filter (fun x => !(x.id == idv))).filter
            (inRange (s.getD "") (e.getD ""))) = l := by
          injection hbody
        rw [← hl] at hev'
        have hev2 := (List.perm_insertionSort evLe _).mem_iff.mp hev'
        have hev3 := (List.mem_filter.mp hev2).1
        have := (List.mem_filter.mp hev3).2
        simpa using this

/-- Witness for C3 (amended): updating the nonexistent id 99 and the
existing id 1 on the demo store, in both variants, with the submitted
non-empty channel "Post" stored verbatim. -/
theorem update_event_spec_witness :
    (updateEventAuth 99 updBody demoStore =
        ((404, Body.err "Evento no encontrado"), demoStore) ∧
      updateEventNoAuth 99 updBody demoStore =
        ((404, Body.err "Evento no encontrado"), demoStore)) ∧
    (updateEventAuth 1 updBody demoStore =
        ((200, Body.event (applyUpdateAuth updBody evA)),
          ⟨demoStore.events.map
            (fun x => if x.id == 1 then applyUpdateAuth updBody x else x),
            demoStore.nextId⟩) ∧
      updateEventNoAuth 1 updBody demoStore =
        ((200, Body.event (applyUpdateNoAuth updBody evA)),
          ⟨demoStore.events.map
            (fun x => if x.id == 1 then applyUpdateNoAuth updBody x else x),
            demoStore.nextId⟩)) ∧
    (applyUpdateAuth updBody evA).channel = some "Post" ∧
    (applyUpdateNoAuth updBody evA).channel = some "Post" :=
  ⟨(update_event_spec 99 updBody demoStore (by decide)).1 (by decide),
   ((update_event_spec 1 updBody demoStore (by decide)).2 evA (by decide)
      (by decide) (by decide)).1,
   ((update_event_spec 1 updBody demoStore (by decide)).2 evA (by decide)
      (by decide) (by decide)).2.2.1.1 "Post" rfl (by decide),
   ((update_event_spec 1 updBody demoStore (by decide)).2 evA (by decide)
      (by decide) (by decide)).2.2.2.2.1 "Post" rfl⟩

/-- Witness for C9: an update missing `time`, aimed at the nonexistent
id 99, answers 400 (not 404) in both variants. -/
theorem update_validation_precedes_existence_witness :
    (updateEventAuth 99 ⟨some "2024-06-03", none, some "T", none, none, none⟩
        demoStore =
      ((400, Body.err "Los campos 'date', 'time' y 'title' son obligatorios."),
        demoStore) ∧
      updateEventNoAuth 99 ⟨some "2024-06-03", none, some "T", none, none, none⟩
        demoStore =
      ((400, Body.err "Los campos 'date', 'time' y 'title' son obligatorios."),
        demoStore)) ∧
    (updateEventAuth 99 ⟨some "2024-06-03", none, some "T", none, none, none⟩
        demoStore).1.1 ≠ 404 ∧
    (updateEventNoAuth 99 ⟨some "2024-06-03", none, some "T", none, none, none⟩
        demoStore).1.1 ≠ 404 :=
  update_validation_precedes_existence 99
    ⟨some "2024-06-03", none, some "T", none, none, none⟩ demoStore (by decide)

/-- Witness for C4: deleting the nonexistent id 99 and the existing id 1
on the demo store, in both variants. -/
theorem delete_event_spec_witness :
    (deleteEventAuth 99 demoStore =
        ((404, Body.err "Evento no encontrado"), demoStore) ∧
      deleteEventNoAuth 99 demoStore =
        ((404, Body.err "Evento no encontrado"), demoStore)) ∧
    (deleteEventAuth 1 demoStore = ((200, Body.success), ⟨[evB], 3⟩) ∧
      deleteEventNoAuth 1 demoStore = ((200, Body.success), ⟨[evB], 3⟩)) :=
  ⟨(delete_event_spec 99 demoStore).1 (by decide),
   ((delete_event_spec 1 demoStore).2 ⟨evA, by decide, by decide⟩).1⟩

/-- C5: with both fields present, login answers 401 exactly when the
lookup by email finds no user, an inactive user, or a stored password
that differs (plain string equality) from the submitted one; on success
the session is set to the {id, email, role} projection of the stored
user and the same projection is the response body — in particular the
session role equals the stored role. -/
theorem login_auth_spec (email password : Option String) (users : List User)
    (sess : Option SessionUser)
    (he : strTruthy email = true) (hp : strTruthy password = true) :
    ((login email password users sess).status = 401 ↔
      (users.find? (fun u => u.email == email.getD "") = none ∨
        ∃ u, users.find? (fun u => u.email == email.getD "") = some u ∧
          (u.active = false ∨ u.password ≠ password.getD ""))) ∧
    (∀ u, users.find? (fun u => u.email == email.getD "") = some u →
      u.active = true → u.password = password.getD "" →
      login email password users sess =
        ⟨200, [("id", JValue.n u.id), ("email", JValue.s u.email),
               ("role", JValue.s u.role)], some ⟨u.id, u.email, u.role⟩⟩) := by
  have hcond : ¬((!strTruthy email || !strTruthy password) = true) := by
    simp [he, hp]
  constructor
  · cases hfind : users.find? (fun u => u.email == email.getD "") with
    | none =>
      unfold login
      rw [if_neg hcond, hfind]
      simp
    | some u =>
      by_cases hact : u.active = true
      · by_cases hpw : u.password = password.getD ""
        · unfold login
          rw [if_neg hcond, hfind]
          simp [hact, hpw]
        · unfold login
          rw [if_neg hcond, hfind]
          simp [hact, hpw]
      · have hact' : u.active = false := by simpa using hact
        unfold login
        rw [if_neg hcond, hfind]
        simp [hact']
  · intro u hfind hact hpw
    unfold login
    rw [if_neg hcond, hfind]
    simp [hact, hpw]

/-- Witness for C5: a successful login, a wrong password, an inactive
user, and an unknown email, against the demo user table. -/
theorem login_auth_spec_witness :
    login (some "admin@wfg.com") (some "secreto123") demoUsers none =
      ⟨200, [("id", JValue.n 7), ("email", JValue.s "admin@wfg.com"),
             ("role", JValue.s "admin")],
        some ⟨7, "admin@wfg.com", "admin"⟩⟩ ∧
    (login (some "admin@wfg.com") (some "wrong") demoUsers none).status = 401 ∧
    (login (some "ex@wfg.com") (some "pw") demoUsers none).status = 401 ∧
    (login (some "nadie@wfg.com") (some "pw") demoUsers none).status = 401 :=
  ⟨(login_auth_spec (some "admin@wfg.com") (some "secreto123") demoUsers none
      (by decide) (by decide)).2 adminUser (by decide) (by decide) (by decide),
   (login_auth_spec (some "admin@wfg.com") (some "wrong") demoUsers none
      (by decide) (by decide)).1.mpr
      (Or.inr ⟨adminUser, by decide, Or.inr (by decide)⟩),
   (login_auth_spec (some "ex@wfg.com") (some "pw") demoUsers none
      (by decide) (by decide)).1.mpr
      (Or.inr ⟨inactiveUser, by decide, Or.inl (by decide)⟩),
   (login_auth_spec (some "nadie@wfg.com") (some "pw") demoUsers none
      (by decide) (by decide)).1.mpr (Or.inl (by decide))⟩

/-- Every login outcome is either an error body with the session
unchanged, or the {id, email, role} projection of a stored user in both
body and session. -/
theorem login_cases (email password : Option String) (users : List User)
    (sess : Option SessionUser) :
    (∃ msg, (login email password users sess).body = [("error", JValue.s msg)] ∧
      (login email password users sess).session = sess) ∨
    (∃ u, u ∈ users ∧
      (login email password users sess).body =
        [("id", JValue.n u.id), ("email", JValue.s u.email),
         ("role", JValue.s u.role)] ∧
      (login email password users sess).session =
        some ⟨u.id, u.email, u.role⟩) := by
  unfold login
  split
  · exact Or.inl ⟨_, rfl, rfl⟩
  · split
    · exact Or.inl ⟨_, rfl, rfl⟩
    · rename_i u hfind
      split
      · exact Or.inl ⟨_, rfl, rfl⟩
      · split
        · exact Or.inl ⟨_, rfl, rfl⟩
        · exact Or.inr ⟨u, List.mem_of_find?_eq_some hfind, rfl, rfl⟩

/-- C10: the login route never discloses stored credentials: every
key of the response body is one of error, id, email, role — never
password or active — and the session after the request is either
unchanged or exactly the {id, email, role} projection of a stored
user. -/
theorem login_no_credential_leak (email password : Option String)
    (users : List User) (sess : Option SessionUser) :
    (∀ k v, (k, v) ∈ (login email password users sess).body →
      k = "error" ∨ k = "id" ∨ k = "email" ∨ k = "role") ∧
    ((login email password users sess).session = sess ∨
      ∃ u, u ∈ users ∧ (login email password users sess).session =
        some ⟨u.id, u.email, u.role⟩) := by
  rcases login_cases email password users sess with ⟨msg, hb, hs⟩ | ⟨u, hu, hb, hs⟩
  · constructor
    · intro k v hkv
      rw [hb] at hkv
      simp only [List.mem_singleton, Prod.mk.injEq] at hkv
      exact Or.inl hkv.1
    · exact Or.inl hs
  · constructor
    · intro k v hkv
      rw [hb] at hkv
      simp only [List.mem_cons, List.mem_singleton, Prod.mk.injEq,
        List.not_mem_nil, or_false] at hkv
      rcases hkv with ⟨hk, -⟩ | ⟨hk, -⟩ | ⟨hk, -⟩ <;> simp [hk]
    · exact Or.inr ⟨u, hu, hs⟩

/-- Witness for C10: a concrete successful login whose body carries the
`id` field, against the demo user table. -/
theorem login_no_credential_leak_witness :
    ("id" = "error" ∨ "id" = "id" ∨ "id" = "email" ∨ "id" = "role") ∧
    ((login (some "admin@wfg.com") (some "secreto123") demoUsers none).session
        = none ∨
      ∃ u, u ∈ demoUsers ∧
        (login (some "admin@wfg.com") (some "secreto123") demoUsers
          none).session = some ⟨u.id, u.email, u.role⟩) :=
  ⟨(login_no_credential_leak (some "admin@wfg.com") (some "secreto123")
      demoUsers none).1 "id" (JValue.n 7) (by decide),
   (login_no_credential_leak (some "admin@wfg.com") (some "secreto123")
      demoUsers none).2⟩

end Calendario
